import Mathlib

/-!
Verification of the wis2box notification-driven dispatch engine.

The definitions below are a shallow embedding of
`wis2box-management/wis2box/pubsub/subscribe.py` (the `WIS2BoxSubscriber`
class: `on_message_handler` and `handle`) and
`wis2box-management/wis2box/data_mappings.py` (`get_data_mappings`).
External collaborators (the MQTT broker, `json.loads`, the OGC API Records
client, and the `Handler` transform plugin chain) are modelled as explicit
inputs: their outcome on the message at hand is a parameter of the embedded
function, exactly mirroring where the Python code calls out to them.
-/

namespace Wis2box

/-- A JSON value as returned by `json.loads`: the structured documents the
subscriber receives as message payloads and catalog records. -/
inductive JVal where
  | null
  | bool (b : Bool)
  | num (n : Int)
  | str (s : String)
  | arr (xs : List JVal)
  | obj (fields : List (String × JVal))
deriving Repr

/-- The Python exceptions that can escape the embedded fragments. -/
inductive PyError where
  | jsonDecodeError
  | keyError (k : String)
  | attributeError (attr : String)
  | typeError (msg : String)
  | externalError (msg : String)
deriving Repr, DecidableEq

/-- Python `d.get(k)`: `None` when the key is absent; raises
`AttributeError` when the value is not a dict. -/
def pyGet (v : JVal) (k : String) : Except PyError (Option JVal) :=
  match v with
  | .obj fields => .ok (fields.lookup k)
  | _ => .error (.attributeError "get")

/-- Python `d[k]` on a parsed JSON document: raises `KeyError` when the key
is absent and `TypeError` when the value is not a dict. -/
def pyIndex (v : JVal) (k : String) : Except PyError JVal :=
  match v with
  | .obj fields =>
    match fields.lookup k with
    | some x => .ok x
    | none => .error (.keyError k)
  | _ => .error (.typeError "value is not subscriptable by a string key")

/-- Python `str(v)` on a parsed JSON value. Composite values are rendered
as placeholders: no storage key or identifier relevant to the dispatch
paths is a list or a dict, only the scalar cases are exercised. -/
def pyStr (v : JVal) : String :=
  match v with
  | .str s => s
  | .null => "None"
  | .bool true => "True"
  | .bool false => "False"
  | .num n => toString n
  | .arr _ => "<list>"
  | .obj _ => "<dict>"

/-- Python `s.startswith(p)` on the character lists of the two strings. -/
def charsStartsWith : List Char → List Char → Bool
  | _, [] => true
  | [], _ :: _ => false
  | c :: cs, p :: ps => c == p && charsStartsWith cs ps

/-- Python `s.startswith(p)`. -/
def strStartsWith (s p : String) : Bool :=
  charsStartsWith s.data p.data

/-- Python `s.split(sep)` for a one-character separator, on character
lists; `acc` is the current segment read so far, reversed. Splitting keeps
empty segments, as Python does. -/
def charsSplitOnChar (sep : Char) : List Char → List Char → List (List Char)
  | [], acc => [acc.reverse]
  | c :: cs, acc =>
    if c == sep then acc.reverse :: charsSplitOnChar sep cs []
    else charsSplitOnChar sep cs (c :: acc)

/-- The environment configuration the subscriber reads
(`STORAGE_SOURCE` and `STORAGE_ARCHIVE` from `wis2box.env`). -/
structure Config where
  storage_source : String
  storage_archive : String
deriving Repr

/-- An inbound broker message as seen by `on_message_handler`: the topic
and the result of `json.loads(msg.payload)` — `none` when the raw payload
is not valid JSON, in which case `json.loads` raises. -/
structure InMsg where
  topic : String
  payload : Option JVal

/-- Everything `on_message_handler` does for one message: which payload it
upserts into the `messages` collection, whether it refreshes the data
mappings, which metadata it forwards to the dataset-publication path,
which identifier it forwards to `remove_collection`, and which
`(filepath, message)` pair it hands to a spawned `mp.Process` running
`handle` (after the admission wait). The `filepath` component is an
`Option` because the Python variable is initialised to `None`. -/
structure HandlerOutcome where
  storedNotification : Option JVal := none
  refreshed : Bool := false
  published : Option (Option JVal) := none
  unpublished : Option String := none
  dispatched : Option (Option String × JVal) := none
deriving Repr

/-- Python `topic.split('/')[-1]`: the split never returns an empty list,
so the default is never used. -/
def topicLastSegment (topic : String) : String :=
  ⟨(charsSplitOnChar '/' topic.data []).getLastD []⟩

/-- Embedding of `WIS2BoxSubscriber.on_message_handler`
(subscribe.py lines 74-116).

Faithfulness notes:
* the notifications branch has no `return` in the source, so after the
  upsert, control falls through to the admission wait and the process
  spawn with `filepath` still `None`;
* when `topic == 'wis2box/storage'` but the event test fails, the
  remaining `elif` arms compare `topic` against other literals and all
  fail, so the message reaches the final `else` (ignore); the embedding
  inlines that as the empty outcome inside the storage arm;
* the number of running workers does not influence which outcome is
  produced, only when the spawn happens; the admission wait itself is
  embedded separately as `stepEv`/`execTrace` below. -/
def on_message_handler (cfg : Config) (msg : InMsg) : Except PyError HandlerOutcome :=
  match msg.payload with
  | none => .error .jsonDecodeError
  | some message =>
    if msg.topic = "wis2box/notifications" then
      .ok { storedNotification := some message,
            dispatched := some (none, message) }
    else if msg.topic = "wis2box/storage" then
      match pyGet message "EventName" with
      | .error e => .error e
      | .ok ev =>
        match ev with
        | some (JVal.str s) =>
          if s = "s3:ObjectCreated:Put" then
            match pyIndex message "Key" with
            | .error e => .error e
            | .ok kv =>
              let key := pyStr kv
              let filepath := cfg.storage_source ++ "/" ++ key
              if strStartsWith key cfg.storage_archive then
                .ok { }
              else
                .ok { dispatched := some (some filepath, message) }
          else
            .ok { }
        | _ => .ok { }
    else if msg.topic = "wis2box/data_mappings/refresh" then
      .ok { refreshed := true }
    else if msg.topic = "wis2box/dataset_publication" then
      match pyGet message "somekey" with
      | .error e => .error e
      | .ok metadata => .ok { published := some metadata }
    else if strStartsWith msg.topic "wis2box/dataset_unpublication" then
      .ok { unpublished := some (topicLastSegment msg.topic) }
    else
      .ok { }

/-- Number of worker processes `on_message_handler` starts for a message
with the given outcome: one `mp.Process` per dispatched pair. -/
def workersStarted (o : HandlerOutcome) : Nat :=
  if o.dispatched.isSome then 1 else 0

/-- The outcome of the body of the `try` block in
`WIS2BoxSubscriber.handle` (the `Handler` collaborator's construction,
its `handle()` call, and the plugin `files()` enumeration): either it
completes with the per-plugin output file lists, or `handle()` returns
`False`, or it raises `NotHandledError`, `ValueError`, or some other
exception. The collaborator itself lives outside the dispatch core, so its
outcome on the message at hand is the embedded function's input. -/
inductive HandlerRun where
  | handled (pluginFiles : List (List String))
  | handledFalse
  | raisesNotHandled (e : String)
  | raisesValueError (e : String)
  | raisesOther (e : String)
deriving Repr

/-- Log severities used by `handle`. -/
inductive Sev where
  | debug
  | info
  | error
deriving Repr, DecidableEq

/-- A log record: severity and text. -/
abbrev Log := Sev × String

/-- Python `str(filepath)` where `filepath : Optional str`. -/
def showFilepath : Option String → String
  | none => "None"
  | some s => s

/-- What a `handle` invocation produces: its log records, the public
output filepaths it reports (the observable results of a worker), and the
exception it re-raises, if any. -/
structure HandleResult where
  logs : List Log
  publicFiles : List String
  raised : Option String
deriving Repr

/-- Embedding of `WIS2BoxSubscriber.handle` (subscribe.py lines 53-72):
the `try` block logs and runs the `Handler` collaborator, then
`NotHandledError` is swallowed with a debug log, `ValueError` is swallowed
with an error log, and any other exception is re-raised. -/
def handle (message : JVal) (filepath : Option String) (run : HandlerRun) : HandleResult :=
  let procLog : Log :=
    (Sev.info, "Processing " ++ pyStr message ++ " for " ++ showFilepath filepath)
  match run with
  | .handled pluginFiles =>
    { logs := procLog :: (Sev.info, "Data processed") ::
        (pluginFiles.flatten.map fun f => (Sev.info, "Public filepath: " ++ f)),
      publicFiles := pluginFiles.flatten,
      raised := none }
  | .handledFalse =>
    { logs := [procLog], publicFiles := [], raised := none }
  | .raisesNotHandled e =>
    { logs := [procLog, (Sev.debug, "not handled error: " ++ e)],
      publicFiles := [], raised := none }
  | .raisesValueError e =>
    { logs := [procLog, (Sev.error, "handle() error: " ++ e)],
      publicFiles := [], raised := none }
  | .raisesOther e =>
    { logs := [procLog], publicFiles := [], raised := some e }

/-- Modelled from the spec: the `Handler(filepath, data_mappings)`
collaborator (its source is not part of the dispatch core fragment)
derives the topic-hierarchy key from the file path and looks it up in the
mapping table (spec section 4.2 step 2); a missing mapping is a data fault
raised as `ValueError` (spec section 7). The key derivation and the
behaviour with a registered mapping are opaque and are the `deriveKey`
and `registered` arguments. -/
def handlerRun (deriveKey : String → String) (table : List (String × JVal))
    (filepath : String) (registered : HandlerRun) : HandlerRun :=
  if (table.lookup (deriveKey filepath)).isSome then registered
  else .raisesValueError ("no mapping found for " ++ deriveKey filepath)

/-- Python dict assignment `d[k] = v` on an association list with unique
keys: replace in place when the key exists, append otherwise. -/
def dictInsert (d : List (String × JVal)) (k : String) (v : JVal) : List (String × JVal) :=
  if d.any (fun p => k == p.1) then
    d.map (fun p => if k == p.1 then (k, v) else p)
  else
    d ++ [(k, v)]

/-- The failure `get_data_mappings` raises:
`EnvironmentError(f'Issue loading data mappings: ...')` wrapping the
underlying exception. -/
inductive LoadError where
  | environmentError (cause : PyError)
deriving Repr, DecidableEq

/-- One iteration of the loop in `get_data_mappings`:
`key = record['wis2box']['topic_hierarchy']`,
`value = record['wis2box']['data_mappings']`. The topic-hierarchy value is
a string in every WCMP2 discovery-metadata record; a non-string one cannot
index the embedded string-keyed table and is treated as a load fault. -/
def recordEntry (record : JVal) : Except PyError (String × JVal) := do
  let w ← pyIndex record "wis2box"
  let th ← pyIndex w "topic_hierarchy"
  let dm ← pyIndex w "data_mappings"
  match th with
  | .str s => pure (s, dm)
  | _ => .error (.typeError "topic_hierarchy is used as a string table key")

/-- The loop of `get_data_mappings`: fold the records into the dict; the
first failing record aborts the whole load (the local dict is discarded
when the `try` block raises). -/
def buildMappings : List JVal → List (String × JVal) → Except PyError (List (String × JVal))
  | [], acc => .ok acc
  | r :: rs, acc =>
    match recordEntry r with
    | .ok (k, v) => buildMappings rs (dictInsert acc k v)
    | .error e => .error e

/-- Embedding of `data_mappings.get_data_mappings` (data_mappings.py
lines 31-53). The catalog query
`oar.collection_items('discovery-metadata')` is an external collaborator;
its outcome (the records document, or a failure) is the input. Any
exception inside the `try` block — a failed fetch, a missing `features`
key, or a malformed record — is re-raised as an `EnvironmentError`; no
partially built table escapes. -/
def get_data_mappings (fetch : Except PyError JVal) : Except LoadError (List (String × JVal)) :=
  match (do
      let records ← fetch
      let features ← pyIndex records "features"
      match features with
      | JVal.arr rs => buildMappings rs []
      | _ => .error (.typeError "features is not iterable as a record list")
    : Except PyError (List (String × JVal))) with
  | .ok d => .ok d
  | .error e => .error (.environmentError e)

/-- The `wis2box/data_mappings/refresh` branch:
`self.data_mappings = get_data_mappings()`. In Python the attribute
assignment happens only if the call returns; when it raises, the old
attribute value is retained and the exception propagates to the caller. -/
def refresh_data_mappings (current : List (String × JVal)) (fetch : Except PyError JVal) :
    List (String × JVal) × Option LoadError :=
  match get_data_mappings fetch with
  | .ok t => (t, none)
  | .error e => (current, some e)

/-- Modelled from the spec: `add_collection_data` (called on a
`wis2box/dataset_publication` message; its source is not part of the
dispatch core fragment) registers a data collection in the collection
registry under the dataset identifier; registry keys are unique (spec
sections 4.2 and 6). -/
def add_collection_data (registry : List (String × JVal)) (identifier : String)
    (metadata : JVal) : List (String × JVal) :=
  dictInsert registry identifier metadata

/-- Modelled from the spec: `remove_collection` (called on a
`wis2box/dataset_unpublication/<identifier>` message; its source is not
part of the dispatch core fragment) removes the named collection from the
collection registry (spec sections 4.2 and 6). -/
def remove_collection (registry : List (String × JVal)) (identifier : String) :
    List (String × JVal) :=
  registry.filter (fun p => p.1 != identifier)

/-- Apply the registry-affecting effects of one message outcome:
a publication outcome registers the collection under the identifier the
external collaborator derives from the metadata (`identifierOf`); an
unpublication outcome removes the collection named by the topic suffix.
(`publish_discovery_metadata` touches the catalog, not the collection
registry.) A `None` metadata value is stored as JSON null. -/
def applyRegistry (identifierOf : Option JVal → String)
    (registry : List (String × JVal)) (o : HandlerOutcome) : List (String × JVal) :=
  match o.published with
  | some md => add_collection_data registry (identifierOf md) (md.getD JVal.null)
  | none =>
    match o.unpublished with
    | some id => remove_collection registry id
    | none => registry

/-- Worker lifecycle events as the admission loop observes them
(subscribe.py lines 112-116): a process start after the spin-wait exits,
and a process termination — `mp.active_children()` joins and forgets a
child whether it exited normally or crashed, so a termination carries only
an informational `crashed` flag. -/
inductive Ev where
  | start
  | finish (crashed : Bool)
deriving Repr, DecidableEq

/-- The spin-wait condition
`while len(mp.active_children()) == mp.cpu_count()`: the dispatcher is
blocked from starting a worker exactly while the number of running
children equals the ceiling. -/
def admissionBlocked (running ceiling : Nat) : Bool :=
  running == ceiling

/-- One admission-relevant event applied to the running-worker count:
a `start` is possible only when the spin-wait is not blocked and adds one
running worker; a `finish` removes one (it needs a worker to exist).
`none` means the event cannot happen in that state. -/
def stepEv (ceiling running : Nat) : Ev → Option Nat
  | .start => if admissionBlocked running ceiling then none else some (running + 1)
  | .finish _ => if running = 0 then none else some (running - 1)

/-- Run a sequence of admission events from a running-worker count;
`none` when some event was impossible. The dispatcher handles messages on
a single thread, so starts are serialized through the spin-wait, while
finishes may interleave arbitrarily. -/
def execTrace (ceiling : Nat) : Nat → List Ev → Option Nat
  | running, [] => some running
  | running, e :: es =>
    match stepEv ceiling running e with
    | some r => execTrace ceiling r es
    | none => none

/-- Evaluation of the handler on `wis2box/storage`: the topic comparisons
along the branch chain reduce definitionally, leaving the event and key
inspection of the payload. -/
theorem onMsg_storage_eval (cfg : Config) (m : JVal) :
    on_message_handler cfg { topic := "wis2box/storage", payload := some m } =
      (match pyGet m "EventName" with
       | .error e => .error e
       | .ok ev =>
         match ev with
         | some (JVal.str s) =>
           if s = "s3:ObjectCreated:Put" then
             match pyIndex m "Key" with
             | .error e => .error e
             | .ok kv =>
               if strStartsWith (pyStr kv) cfg.storage_archive then
                 .ok { }
               else
                 .ok { dispatched := some (some (cfg.storage_source ++ "/" ++ pyStr kv), m) }
           else .ok { }
         | _ => .ok { }) := rfl

/-- Evaluation of the handler on `wis2box/dataset_publication`. -/
theorem onMsg_publication_eval (cfg : Config) (fields : List (String × JVal)) :
    on_message_handler cfg
        { topic := "wis2box/dataset_publication", payload := some (JVal.obj fields) } =
      Except.ok { published := some (fields.lookup "somekey") } := rfl

/-- A topic with the `wis2box/dataset_unpublication` prefix differs from
every literal tested earlier in the branch chain. -/
theorem ne_of_unpub_prefix (t : String)
    (h5 : strStartsWith t "wis2box/dataset_unpublication" = true) :
    t ≠ "wis2box/notifications" ∧ t ≠ "wis2box/storage" ∧
    t ≠ "wis2box/data_mappings/refresh" ∧ t ≠ "wis2box/dataset_publication" := by
  refine ⟨?_, ?_, ?_, ?_⟩ <;> rintro rfl <;> exact absurd h5 (by decide)

/-- Evaluation of the handler on an unpublication topic. -/
theorem onMsg_unpub_eval (cfg : Config) (t : String) (m : JVal)
    (h1 : t ≠ "wis2box/notifications") (h2 : t ≠ "wis2box/storage")
    (h3 : t ≠ "wis2box/data_mappings/refresh") (h4 : t ≠ "wis2box/dataset_publication")
    (h5 : strStartsWith t "wis2box/dataset_unpublication" = true) :
    on_message_handler cfg { topic := t, payload := some m } =
      Except.ok { unpublished := some (topicLastSegment t) } := by
  simp [on_message_handler, h1, h2, h3, h4, h5]

/-- A key absent from an association list fails the membership scan. -/
theorem lookup_none_any_false (id : String) : ∀ (d : List (String × JVal)),
    d.lookup id = none → d.any (fun p => id == p.1) = false := by
  intro d
  induction d with
  | nil => intro _; rfl
  | cons p ps ih =>
    intro h
    cases hpk : (id == p.1) with
    | true => simp [List.lookup, hpk] at h
    | false =>
      have h' : ps.lookup id = none := by simpa [List.lookup, hpk] using h
      simp [List.any, hpk, ih h']

/-- Removing a key absent from an association list leaves it unchanged. -/
theorem filter_ne_of_lookup_none (id : String) : ∀ (d : List (String × JVal)),
    d.lookup id = none → d.filter (fun p => p.1 != id) = d := by
  intro d
  induction d with
  | nil => intro _; rfl
  | cons p ps ih =>
    intro h
    cases hpk : (id == p.1) with
    | true => simp [List.lookup, hpk] at h
    | false =>
      have h' : ps.lookup id = none := by simpa [List.lookup, hpk] using h
      have hne : p.1 ≠ id := fun he => by simp [he] at hpk
      simp [List.filter_cons, hne, ih h']

/-- Registering a fresh identifier and then removing it restores the
registry. -/
theorem add_remove_roundtrip (registry : List (String × JVal)) (id : String) (v : JVal)
    (hfresh : registry.lookup id = none) :
    remove_collection (add_collection_data registry id v) id = registry := by
  rw [add_collection_data, dictInsert, lookup_none_any_false id registry hfresh]
  simp only [Bool.false_eq_true, if_false]
  rw [remove_collection, List.filter_append, filter_ne_of_lookup_none id registry hfresh]
  simp [List.filter_cons]

/-- The running-count invariant of the spin-wait: a trace that starts at
or below the ceiling stays at or below it. -/
theorem execTrace_le (ceiling : Nat) : ∀ (tr : List Ev) (r n : Nat), r ≤ ceiling →
    execTrace ceiling r tr = some n → n ≤ ceiling := by
  intro tr
  induction tr with
  | nil =>
    intro r n h0 h
    simp [execTrace] at h
    omega
  | cons e es ih =>
    intro r n h0 h
    cases e with
    | start =>
      by_cases hrc : r = ceiling
      · simp [execTrace, stepEv, admissionBlocked, hrc] at h
      · have h' : execTrace ceiling (r + 1) es = some n := by
          simpa [execTrace, stepEv, admissionBlocked, hrc] using h
        exact ih (r + 1) n (by omega) h'
    | finish c =>
      by_cases hr0 : r = 0
      · simp [execTrace, stepEv, hr0] at h
      · have h' : execTrace ceiling (r - 1) es = some n := by
          simpa [execTrace, stepEv, hr0] using h
        exact ih (r - 1) n (by omega) h'

/-- Traces compose by sequencing. -/
theorem execTrace_append (ceiling : Nat) : ∀ (t1 t2 : List Ev) (r : Nat),
    execTrace ceiling r (t1 ++ t2) =
      (execTrace ceiling r t1).bind (fun m => execTrace ceiling m t2) := by
  intro t1
  induction t1 with
  | nil => intro t2 r; simp [execTrace]
  | cons e es ih =>
    intro t2 r
    cases h : stepEv ceiling r e with
    | none => simp [execTrace, h]
    | some m => simp [execTrace, h, ih]

/-- Starting `k` workers in a row succeeds while capacity allows. -/
theorem execTrace_replicate_start (ceiling : Nat) : ∀ (k r : Nat), r + k ≤ ceiling →
    execTrace ceiling r (List.replicate k Ev.start) = some (r + k) := by
  intro k
  induction k with
  | zero => intro r _; simp [execTrace]
  | succ k ih =>
    intro r h
    have hrc : r ≠ ceiling := by omega
    have h1 : stepEv ceiling r Ev.start = some (r + 1) := by
      simp [stepEv, admissionBlocked, hrc]
    rw [List.replicate_succ]
    simp only [execTrace, h1]
    rw [ih (r + 1) (by omega)]
    have : r + 1 + k = r + (k + 1) := by omega
    rw [this]

/-- Finishing `k` workers in a row succeeds while workers remain, whether
they crash or not. -/
theorem execTrace_replicate_finish (ceiling : Nat) (b : Bool) : ∀ (k r : Nat), k ≤ r →
    execTrace ceiling r (List.replicate k (Ev.finish b)) = some (r - k) := by
  intro k
  induction k with
  | zero => intro r _; simp [execTrace]
  | succ k ih =>
    intro r h
    have hr0 : r ≠ 0 := by omega
    have h1 : stepEv ceiling r (Ev.finish b) = some (r - 1) := by
      simp [stepEv, hr0]
    rw [List.replicate_succ]
    simp only [execTrace, h1]
    rw [ih (r - 1) (by omega)]
    have : r - 1 - k = r - (k + 1) := by omega
    rw [this]

/-- C1: the claim states that a `wis2box/notifications` message persists
the payload into the notifications store and spawns no worker. Evaluating
the handler on such a message shows the payload is upserted into the
`messages` collection, but a worker process is also spawned, with
filepath `None`: the notifications branch lacks a `return` and control
falls through to the admission wait and the `mp.Process` spawn. -/
theorem C1_notifications_spawns_worker :
    on_message_handler { storage_source := "http://minio:9000", storage_archive := "wis2box-archive" }
        { topic := "wis2box/notifications", payload := some (JVal.obj [("id", JVal.str "m1")]) } =
      Except.ok { storedNotification := some (JVal.obj [("id", JVal.str "m1")]),
                  dispatched := some (none, JVal.obj [("id", JVal.str "m1")]) } ∧
    workersStarted { storedNotification := some (JVal.obj [("id", JVal.str "m1")]),
                     dispatched := some (none, JVal.obj [("id", JVal.str "m1")]) } = 1 :=
  ⟨rfl, rfl⟩

/-- C2 counterexample: a storage-creation message whose topic-hierarchy
key is absent from the mapping table (here the table is empty, so every
key is absent) still starts one worker: the dispatcher spawns the process
before any mapping lookup happens, refuting the claimed
"zero workers are started". -/
theorem C2_counterexample :
    (([] : List (String × JVal)).lookup "a/b/c" = none) ∧
    on_message_handler { storage_source := "http://minio:9000", storage_archive := "wis2box-archive" }
        { topic := "wis2box/storage", payload := some (JVal.obj
            [("EventName", JVal.str "s3:ObjectCreated:Put"), ("Key", JVal.str "data/core/x.bufr")]) } =
      Except.ok { dispatched := some (some "http://minio:9000/data/core/x.bufr",
        JVal.obj [("EventName", JVal.str "s3:ObjectCreated:Put"), ("Key", JVal.str "data/core/x.bufr")]) } ∧
    workersStarted { dispatched := some (some "http://minio:9000/data/core/x.bufr",
        JVal.obj [("EventName", JVal.str "s3:ObjectCreated:Put"), ("Key", JVal.str "data/core/x.bufr")]) } = 1 :=
  ⟨rfl, rfl, rfl⟩

/-- C2 (amended): for every storage-creation message whose derived
topic-hierarchy key is absent from the mapping table, the dispatcher
still starts one worker — the lookup happens inside the worker — and the
worker's invocation fails with a data fault that is logged at error
severity and swallowed, publishing zero results. -/
theorem C2_missing_mapping_amended (cfg : Config) (fields : List (String × JVal)) (kv : JVal)
    (deriveKey : String → String) (table : List (String × JVal)) (registered : HandlerRun)
    (hev : fields.lookup "EventName" = some (JVal.str "s3:ObjectCreated:Put"))
    (hkey : fields.lookup "Key" = some kv)
    (harch : strStartsWith (pyStr kv) cfg.storage_archive = false)
    (habsent : table.lookup (deriveKey (cfg.storage_source ++ "/" ++ pyStr kv)) = none) :
    on_message_handler cfg { topic := "wis2box/storage", payload := some (JVal.obj fields) } =
      Except.ok { dispatched := some (some (cfg.storage_source ++ "/" ++ pyStr kv), JVal.obj fields) } ∧
    (handle (JVal.obj fields) (some (cfg.storage_source ++ "/" ++ pyStr kv))
        (handlerRun deriveKey table (cfg.storage_source ++ "/" ++ pyStr kv) registered)).raised = none ∧
    (Sev.error, "handle() error: " ++
        ("no mapping found for " ++ deriveKey (cfg.storage_source ++ "/" ++ pyStr kv))) ∈
      (handle (JVal.obj fields) (some (cfg.storage_source ++ "/" ++ pyStr kv))
        (handlerRun deriveKey table (cfg.storage_source ++ "/" ++ pyStr kv) registered)).logs ∧
    (handle (JVal.obj fields) (some (cfg.storage_source ++ "/" ++ pyStr kv))
        (handlerRun deriveKey table (cfg.storage_source ++ "/" ++ pyStr kv) registered)).publicFiles = [] := by
  have hrun : handlerRun deriveKey table (cfg.storage_source ++ "/" ++ pyStr kv) registered =
      HandlerRun.raisesValueError
        ("no mapping found for " ++ deriveKey (cfg.storage_source ++ "/" ++ pyStr kv)) := by
    simp [handlerRun, habsent]
  refine ⟨?_, ?_, ?_, ?_⟩
  · rw [onMsg_storage_eval]
    simp [pyGet, pyIndex, hev, hkey, harch]
  · rw [hrun]; rfl
  · rw [hrun]; simp [handle]
  · rw [hrun]; rfl

/-- Witness for the amended C2 at a concrete message and an empty table. -/
theorem C2_missing_mapping_amended_witness :
    on_message_handler { storage_source := "http://minio:9000", storage_archive := "wis2box-archive" }
        { topic := "wis2box/storage", payload := some (JVal.obj
            [("EventName", JVal.str "s3:ObjectCreated:Put"), ("Key", JVal.str "data/core/x.bufr")]) } =
      Except.ok { dispatched := some (some "http://minio:9000/data/core/x.bufr",
        JVal.obj [("EventName", JVal.str "s3:ObjectCreated:Put"), ("Key", JVal.str "data/core/x.bufr")]) } ∧
    (handle (JVal.obj [("EventName", JVal.str "s3:ObjectCreated:Put"), ("Key", JVal.str "data/core/x.bufr")])
        (some "http://minio:9000/data/core/x.bufr")
        (handlerRun (fun _ => "a/b/c") [] "http://minio:9000/data/core/x.bufr" HandlerRun.handledFalse)).raised = none ∧
    (Sev.error, "handle() error: " ++ ("no mapping found for " ++ "a/b/c")) ∈
      (handle (JVal.obj [("EventName", JVal.str "s3:ObjectCreated:Put"), ("Key", JVal.str "data/core/x.bufr")])
        (some "http://minio:9000/data/core/x.bufr")
        (handlerRun (fun _ => "a/b/c") [] "http://minio:9000/data/core/x.bufr" HandlerRun.handledFalse)).logs ∧
    (handle (JVal.obj [("EventName", JVal.str "s3:ObjectCreated:Put"), ("Key", JVal.str "data/core/x.bufr")])
        (some "http://minio:9000/data/core/x.bufr")
        (handlerRun (fun _ => "a/b/c") [] "http://minio:9000/data/core/x.bufr" HandlerRun.handledFalse)).publicFiles = [] :=
  C2_missing_mapping_amended
    { storage_source := "http://minio:9000", storage_archive := "wis2box-archive" }
    [("EventName", JVal.str "s3:ObjectCreated:Put"), ("Key", JVal.str "data/core/x.bufr")]
    (JVal.str "data/core/x.bufr") (fun _ => "a/b/c") [] HandlerRun.handledFalse
    rfl rfl rfl rfl

/-- C3: for every sequence of admission events the number of concurrently
running workers never exceeds the ceiling, and a start is possible only
when fewer than ceiling workers are running. -/
theorem C3_worker_ceiling :
    (∀ (ceiling n : Nat) (tr : List Ev),
        execTrace ceiling 0 tr = some n → n ≤ ceiling) ∧
    (∀ (ceiling running : Nat), running ≤ ceiling →
        (stepEv ceiling running Ev.start).isSome → running < ceiling) := by
  constructor
  · intro ceiling n tr h
    exact execTrace_le ceiling tr 0 n (Nat.zero_le _) h
  · intro ceiling running h0 h
    by_cases hrc : running = ceiling
    · simp [stepEv, admissionBlocked, hrc] at h
    · omega

/-- Witness for C3 at ceiling 2. -/
theorem C3_worker_ceiling_witness : 2 ≤ 2 ∧ 1 < 2 :=
  ⟨C3_worker_ceiling.1 2 2 [Ev.start, Ev.start] rfl,
   C3_worker_ceiling.2 2 1 (by decide) (by decide)⟩

/-- C4: when the fetch of the topic-to-mapping table cannot complete,
`get_data_mappings` fails with an error and returns no table, partial or
otherwise; and a refresh handled while the source is unavailable leaves
the previously loaded table unchanged. -/
theorem C4_load_failure_keeps_table
    (cause : PyError) (current : List (String × JVal)) (fetch : Except PyError JVal) :
    get_data_mappings (Except.error cause) =
      Except.error (LoadError.environmentError cause) ∧
    (∀ m, get_data_mappings fetch = Except.error m →
        refresh_data_mappings current fetch = (current, some m)) := by
  constructor
  · rfl
  · intro m h
    simp [refresh_data_mappings, h]

/-- Witness for C4: an unreachable source and, separately, a fetch that
fails midway through a malformed record, both leave the table unchanged. -/
theorem C4_load_failure_keeps_table_witness :
    get_data_mappings (Except.error (PyError.externalError "connection refused")) =
      Except.error (LoadError.environmentError (PyError.externalError "connection refused")) ∧
    refresh_data_mappings [("t1", JVal.null)]
        (Except.error (PyError.externalError "connection refused")) =
      ([("t1", JVal.null)],
       some (LoadError.environmentError (PyError.externalError "connection refused"))) ∧
    refresh_data_mappings [("t1", JVal.null)]
        (Except.ok (JVal.obj [("features", JVal.arr [JVal.obj []])])) =
      ([("t1", JVal.null)], some (LoadError.environmentError (PyError.keyError "wis2box"))) :=
  ⟨(C4_load_failure_keeps_table (PyError.externalError "connection refused") [] (Except.error (PyError.externalError "connection refused"))).1,
   (C4_load_failure_keeps_table (PyError.externalError "connection refused") [("t1", JVal.null)]
      (Except.error (PyError.externalError "connection refused"))).2 _ rfl,
   (C4_load_failure_keeps_table (PyError.externalError "connection refused") [("t1", JVal.null)]
      (Except.ok (JVal.obj [("features", JVal.arr [JVal.obj []])]))).2 _ rfl⟩

/-- C5: in the per-message dispatch path, a not-handled condition is
swallowed with a debug log, a `ValueError` is swallowed with an error
log, and any other exception raised during the worker invocation is
re-raised. -/
theorem C5_handle_error_taxonomy (message : JVal) (filepath : Option String) (e : String) :
    (handle message filepath (HandlerRun.raisesNotHandled e)).raised = none ∧
    (handle message filepath (HandlerRun.raisesNotHandled e)).logs =
      [(Sev.info, "Processing " ++ pyStr message ++ " for " ++ showFilepath filepath),
       (Sev.debug, "not handled error: " ++ e)] ∧
    (handle message filepath (HandlerRun.raisesValueError e)).raised = none ∧
    (handle message filepath (HandlerRun.raisesValueError e)).logs =
      [(Sev.info, "Processing " ++ pyStr message ++ " for " ++ showFilepath filepath),
       (Sev.error, "handle() error: " ++ e)] ∧
    (handle message filepath (HandlerRun.raisesOther e)).raised = some e :=
  ⟨rfl, rfl, rfl, rfl, rfl⟩

/-- C6: a storage-creation message whose key falls under the archive
prefix is discarded without action: the handler returns the empty outcome,
so no worker is spawned and no slot is ever taken for it. -/
theorem C6_archive_discard (cfg : Config) (fields : List (String × JVal)) (kv : JVal)
    (hev : fields.lookup "EventName" = some (JVal.str "s3:ObjectCreated:Put"))
    (hkey : fields.lookup "Key" = some kv)
    (harch : strStartsWith (pyStr kv) cfg.storage_archive = true) :
    on_message_handler cfg { topic := "wis2box/storage", payload := some (JVal.obj fields) } =
      Except.ok { } ∧
    workersStarted ({ } : HandlerOutcome) = 0 := by
  constructor
  · rw [onMsg_storage_eval]
    simp [pyGet, pyIndex, hev, hkey, harch]
  · rfl

/-- Witness for C6 at a concrete archived key. -/
theorem C6_archive_discard_witness :
    on_message_handler { storage_source := "http://minio:9000", storage_archive := "wis2box-archive" }
        { topic := "wis2box/storage", payload := some (JVal.obj
            [("EventName", JVal.str "s3:ObjectCreated:Put"),
             ("Key", JVal.str "wis2box-archive/data/x.bufr")]) } =
      Except.ok { } ∧
    workersStarted ({ } : HandlerOutcome) = 0 :=
  C6_archive_discard
    { storage_source := "http://minio:9000", storage_archive := "wis2box-archive" }
    [("EventName", JVal.str "s3:ObjectCreated:Put"), ("Key", JVal.str "wis2box-archive/data/x.bufr")]
    (JVal.str "wis2box-archive/data/x.bufr") rfl rfl rfl

/-- C7: a `wis2box/storage` message with the object-created event and a
key not under the archive prefix is dispatched to a worker whose filepath
is the storage source joined with the key; with a key under the archive
prefix it is discarded. -/
theorem C7_storage_dispatch (cfg : Config) (fields : List (String × JVal)) (kv : JVal)
    (hev : fields.lookup "EventName" = some (JVal.str "s3:ObjectCreated:Put"))
    (hkey : fields.lookup "Key" = some kv) :
    (strStartsWith (pyStr kv) cfg.storage_archive = false →
      on_message_handler cfg { topic := "wis2box/storage", payload := some (JVal.obj fields) } =
        Except.ok { dispatched := some (some (cfg.storage_source ++ "/" ++ pyStr kv), JVal.obj fields) }) ∧
    (strStartsWith (pyStr kv) cfg.storage_archive = true →
      on_message_handler cfg { topic := "wis2box/storage", payload := some (JVal.obj fields) } =
        Except.ok { }) := by
  constructor <;> intro harch <;> rw [onMsg_storage_eval] <;>
    simp [pyGet, pyIndex, hev, hkey, harch]

/-- Witness for C7 at a concrete non-archived key. -/
theorem C7_storage_dispatch_witness :
    on_message_handler { storage_source := "http://minio:9000", storage_archive := "wis2box-archive" }
        { topic := "wis2box/storage", payload := some (JVal.obj
            [("EventName", JVal.str "s3:ObjectCreated:Put"), ("Key", JVal.str "data/core/y.csv")]) } =
      Except.ok { dispatched := some (some ("http://minio:9000" ++ "/" ++ "data/core/y.csv"),
        JVal.obj [("EventName", JVal.str "s3:ObjectCreated:Put"), ("Key", JVal.str "data/core/y.csv")]) } :=
  (C7_storage_dispatch
    { storage_source := "http://minio:9000", storage_archive := "wis2box-archive" }
    [("EventName", JVal.str "s3:ObjectCreated:Put"), ("Key", JVal.str "data/core/y.csv")]
    (JVal.str "data/core/y.csv") rfl rfl).1 rfl

/-- C8 counterexample: when a collection with the identifier is already
registered, a publication followed by an unpublication of the same
identifier empties the registry instead of restoring its previous state:
the insert overwrote the old entry and the remove then deleted it. -/
theorem C8_counterexample :
    on_message_handler { storage_source := "http://minio:9000", storage_archive := "wis2box-archive" }
        { topic := "wis2box/dataset_publication",
          payload := some (JVal.obj [("somekey", JVal.str "meta")]) } =
      Except.ok { published := some (some (JVal.str "meta")) } ∧
    on_message_handler { storage_source := "http://minio:9000", storage_archive := "wis2box-archive" }
        { topic := "wis2box/dataset_unpublication/ds1", payload := some (JVal.obj []) } =
      Except.ok { unpublished := some "ds1" } ∧
    applyRegistry (fun _ => "ds1")
        (applyRegistry (fun _ => "ds1") [("ds1", JVal.null)]
          { published := some (some (JVal.str "meta")) })
        { unpublished := some "ds1" } = [] ∧
    ([] : List (String × JVal)) ≠ [("ds1", JVal.null)] :=
  ⟨rfl, rfl, rfl, fun h => List.noConfusion h⟩

/-- C8 (amended): a dataset-publication message immediately followed by a
dataset-unpublication message for the same identifier restores the
collection registry, provided no collection with that identifier was
registered before the publication. -/
theorem C8_roundtrip_amended (cfg : Config) (registry : List (String × JVal))
    (identifierOf : Option JVal → String) (fields : List (String × JVal))
    (unpubTopic id : String)
    (hstart : strStartsWith unpubTopic "wis2box/dataset_unpublication" = true)
    (hlast : topicLastSegment unpubTopic = id)
    (hid : identifierOf (fields.lookup "somekey") = id)
    (hfresh : registry.lookup id = none) :
    ∃ o₁ o₂ : HandlerOutcome,
      on_message_handler cfg
          { topic := "wis2box/dataset_publication", payload := some (JVal.obj fields) } =
        Except.ok o₁ ∧
      on_message_handler cfg { topic := unpubTopic, payload := some (JVal.obj fields) } =
        Except.ok o₂ ∧
      applyRegistry identifierOf (applyRegistry identifierOf registry o₁) o₂ = registry := by
  obtain ⟨h1, h2, h3, h4⟩ := ne_of_unpub_prefix unpubTopic hstart
  refine ⟨_, _, onMsg_publication_eval cfg fields,
    onMsg_unpub_eval cfg unpubTopic (JVal.obj fields) h1 h2 h3 h4 hstart, ?_⟩
  simp only [applyRegistry, hid, hlast]
  exact add_remove_roundtrip registry id _ hfresh

/-- Witness for the amended C8 at a concrete identifier and registry. -/
theorem C8_roundtrip_amended_witness :
    ∃ o₁ o₂ : HandlerOutcome,
      on_message_handler { storage_source := "http://minio:9000", storage_archive := "wis2box-archive" }
          { topic := "wis2box/dataset_publication",
            payload := some (JVal.obj [("somekey", JVal.str "meta")]) } =
        Except.ok o₁ ∧
      on_message_handler { storage_source := "http://minio:9000", storage_archive := "wis2box-archive" }
          { topic := "wis2box/dataset_unpublication/ds2",
            payload := some (JVal.obj [("somekey", JVal.str "meta")]) } =
        Except.ok o₂ ∧
      applyRegistry (fun _ => "ds2")
          (applyRegistry (fun _ => "ds2") [("other", JVal.null)] o₁) o₂ =
        [("other", JVal.null)] :=
  C8_roundtrip_amended
    { storage_source := "http://minio:9000", storage_archive := "wis2box-archive" }
    [("other", JVal.null)] (fun _ => "ds2") [("somekey", JVal.str "meta")]
    "wis2box/dataset_unpublication/ds2" "ds2" rfl rfl rfl rfl

/-- C9: a worker slot is freed when the worker terminates on every exit
path — `mp.active_children()` stops counting a child whether it exited
normally or crashed — and after the ceiling many workers all crash, a
further start is admitted: no capacity leaks. -/
theorem C9_slot_release :
    (∀ (ceiling running : Nat) (crashed : Bool), 0 < running →
        stepEv ceiling running (Ev.finish crashed) = some (running - 1)) ∧
    (∀ ceiling : Nat, 0 < ceiling →
        execTrace ceiling 0 (List.replicate ceiling Ev.start ++
          (List.replicate ceiling (Ev.finish true) ++ [Ev.start])) = some 1) := by
  constructor
  · intro ceiling running crashed h
    have hr0 : running ≠ 0 := by omega
    simp [stepEv, hr0]
  · intro ceiling h
    rw [execTrace_append, execTrace_replicate_start ceiling ceiling 0 (by omega)]
    simp only [Nat.zero_add, Option.some_bind]
    rw [execTrace_append, execTrace_replicate_finish ceiling true ceiling ceiling (Nat.le_refl _)]
    simp only [Nat.sub_self, Option.some_bind]
    have h0c : (0 : Nat) ≠ ceiling := by omega
    simp [execTrace, stepEv, admissionBlocked, h0c]

/-- Witness for C9 at ceiling 2: two workers start, both crash, and a
third is then admitted. -/
theorem C9_slot_release_witness :
    stepEv 2 2 (Ev.finish true) = some 1 ∧
    execTrace 2 0 (List.replicate 2 Ev.start ++
      (List.replicate 2 (Ev.finish true) ++ [Ev.start])) = some 1 :=
  ⟨C9_slot_release.1 2 2 true (by decide), C9_slot_release.2 2 (by decide)⟩

/-- C10: a message whose payload is not valid JSON makes the handler
raise before any topic classification, whatever the topic; and a
`wis2box/storage` message with the object-created event but no `Key`
field raises `KeyError` instead of being discarded. -/
theorem C10_malformed_payload_raises (cfg : Config) (topic : String)
    (fields : List (String × JVal))
    (hev : fields.lookup "EventName" = some (JVal.str "s3:ObjectCreated:Put"))
    (hkey : fields.lookup "Key" = none) :
    on_message_handler cfg { topic := topic, payload := none } =
      Except.error PyError.jsonDecodeError ∧
    on_message_handler cfg { topic := "wis2box/storage", payload := some (JVal.obj fields) } =
      Except.error (PyError.keyError "Key") := by
  constructor
  · rfl
  · rw [onMsg_storage_eval]
    simp [pyGet, pyIndex, hev, hkey]

/-- Witness for C10 at concrete messages. -/
theorem C10_malformed_payload_raises_witness :
    on_message_handler { storage_source := "http://minio:9000", storage_archive := "wis2box-archive" }
        { topic := "wis2box/notifications", payload := none } =
      Except.error PyError.jsonDecodeError ∧
    on_message_handler { storage_source := "http://minio:9000", storage_archive := "wis2box-archive" }
        { topic := "wis2box/storage",
          payload := some (JVal.obj [("EventName", JVal.str "s3:ObjectCreated:Put")]) } =
      Except.error (PyError.keyError "Key") :=
  C10_malformed_payload_raises
    { storage_source := "http://minio:9000", storage_archive := "wis2box-archive" }
    "wis2box/notifications" [("EventName", JVal.str "s3:ObjectCreated:Put")] rfl rfl

end Wis2box
